import Mathlib

/-!
Verification development for the feed-crawling and lead-extraction engine
implemented in `src/scrapper.py` (class `Scrapper`).

The Python code is shallowly embedded: BeautifulSoup parse trees become the
inductive type `Node` (element tags with attribute lists and children, plus
navigable strings), Python exceptions become the `PyErr` sum carried in
`Except` / `PyResult`, Python truthiness of optional strings is modelled
explicitly, and the in-place mutation performed by `add_cookie` and
`handle_authorization` is modelled by returning the post-call state of the
mutated objects.  The merge step of `get_feed_posts` (line 126) consumes the
accumulated leads through attribute access and `set()`, but the leads are the
plain dicts built by `get_lead_from_feed_post`, so that step is modelled as
the Python errors it raises (`merge_step`).
-/

namespace Scrapper

/-- Python exceptions that the code under `src/scrapper.py` can raise while
extracting leads or establishing a session. -/
inductive PyErr : Type where
  | keyError : String → PyErr
  | indexError : PyErr
  | typeError : PyErr
  | attributeError : PyErr
  | nameError : String → PyErr
deriving DecidableEq

/-- Outcome of running a piece of Python code that may raise or loop forever:
a value, a propagated exception, or divergence (an infinite loop). -/
inductive PyResult (α : Type) : Type where
  | ok : α → PyResult α
  | exn : PyErr → PyResult α
  | diverge : PyResult α
deriving DecidableEq

/-- BeautifulSoup parse-tree node: a `NavigableString` (`txt`) or a `Tag`
(`elem`) with a tag name, an attribute list and a list of children
(`.contents`). -/
inductive Node : Type where
  | txt : String → Node
  | elem : String → List (String × String) → List Node → Node

/-- Lookup of an attribute value by key, as in BeautifulSoup `tag[key]` /
`tag.attrs.get(key)`. -/
def attrLookup (k : String) : List (String × String) → Option String
  | [] => none
  | (k', v) :: rest => if k' = k then some v else attrLookup k rest

/-- Membership test for an attribute key, as in Python `key in tag.attrs`. -/
def hasAttrKey (k : String) (attrs : List (String × String)) : Bool :=
  attrs.any (fun p => p.1 == k)

/-- Tag name of a node: `Tag.name` is the tag name, `NavigableString.name` is
`None`. -/
def nodeName : Node → Option String
  | Node.txt _ => none
  | Node.elem nm _ _ => some nm

/-- Attribute of a node by key, `none` for navigable strings or missing keys. -/
def nodeAttr (k : String) : Node → Option String
  | Node.txt _ => none
  | Node.elem _ a _ => attrLookup k a

mutual
/-- BeautifulSoup `PageElement.text`: concatenation, in document order, of all
string descendants of the node. -/
def Node.text : Node → String
  | Node.txt s => s
  | Node.elem _ _ cs => Node.textList cs

/-- Concatenated text of a list of sibling nodes, in order. -/
def Node.textList : List Node → String
  | [] => ""
  | c :: rest => Node.text c ++ Node.textList rest
end

mutual
/-- Preorder search of a node and its descendants for the first node
satisfying `p`, as in BeautifulSoup `Tag.find`. -/
def findTag (p : Node → Bool) : Node → Option Node
  | Node.txt _ => none
  | Node.elem nm a cs =>
    if p (Node.elem nm a cs) then some (Node.elem nm a cs) else findTagL p cs

/-- Preorder search through a list of sibling nodes and their descendants. -/
def findTagL (p : Node → Bool) : List Node → Option Node
  | [] => none
  | c :: rest =>
    match findTag p c with
    | some r => some r
    | none => findTagL p rest
end

/-- First index of `pat` in a character list starting at offset `i`, or `none`:
the search underlying Python `str.find`. -/
def pyStrFindAux (pat : List Char) : List Char → Nat → Option Nat
  | [], i => if pat.isEmpty then some i else none
  | c :: rest, i =>
    if pat.isPrefixOf (c :: rest) then some i else pyStrFindAux pat rest (i + 1)

/-- Python `s.find(pat)`: index of the first occurrence of `pat` in `s`, or
`-1` when `pat` does not occur. -/
def pyStrFind (s pat : String) : Int :=
  match pyStrFindAux pat.toList s.toList 0 with
  | some i => Int.ofNat i
  | none => -1

/-- Python slice `s[:i]`: for `i ≥ 0` the first `i` characters; for `i < 0`
the first `len(s) + i` characters (clamped at zero). -/
def pySliceUpto (s : String) (i : Int) : String :=
  if i < 0 then String.mk (s.toList.take (s.toList.length - (-i).toNat))
  else String.mk (s.toList.take i.toNat)

/-- Link trimming shared by `_get_post_link` (line 233) and `_get_user_link`
(line 237): `link[: link.find("?__cft__[0]")]`. -/
def trim_tracking (href : String) : String :=
  pySliceUpto href (pyStrFind href "?__cft__[0]")

/-- Outcome of `_get_post_info` (lines 210-226): the returned post-info block,
an implicit `None` (the `break` paths), a propagated exception, or divergence
(the `while True` loop re-entered with an unchanged node). -/
inductive PostInfoResult : Type where
  | info : List Node → PostInfoResult
  | noInfo : PostInfoResult
  | err : PyErr → PostInfoResult
  | diverge : PostInfoResult
deriving Inhabited

/-- Line 220 of `_get_post_info`:
`div.contents[0].contents[0].contents[1:]` evaluated on a qualifying `div`
with non-empty contents `cs`; `.contents` of a navigable string raises
`AttributeError` and `[0]` of an empty list raises `IndexError`, neither of
which is caught there. -/
def extractInfoBlock : List Node → PostInfoResult
  | [] => PostInfoResult.err PyErr.indexError
  | Node.txt _ :: _ => PostInfoResult.err PyErr.attributeError
  | Node.elem _ _ ds :: _ =>
    match ds with
    | [] => PostInfoResult.err PyErr.indexError
    | Node.txt _ :: _ => PostInfoResult.err PyErr.attributeError
    | Node.elem _ _ es :: _ => PostInfoResult.info (es.drop 1)

/-- Lines 218-220 of `_get_post_info`: the `for div in
feed_post.contents[0].contents` loop.  A `div` qualifies when it has no
`class` attribute and non-empty contents; if no `div` qualifies the `for`
loop ends, the `try` block falls through, and the enclosing `while True`
re-runs with `feed_post` unchanged, looping forever. -/
def scanDivs : List Node → PostInfoResult
  | [] => PostInfoResult.diverge
  | Node.txt _ :: _ => PostInfoResult.err PyErr.attributeError
  | Node.elem _ a cs :: rest =>
    if !hasAttrKey "class" a && !cs.isEmpty then extractInfoBlock cs
    else scanDivs rest

/-- Scrapper `_get_post_info` (lines 210-226).  The descent steps into
`feed_post.contents[0]` while the current tag has no `style` attribute
(`KeyError` caught; `IndexError` on a childless tag breaks out returning
`None`) or an empty `style` value (where `IndexError` on `contents[0]` is NOT
caught and propagates); a tag with a non-empty `style` either stops at an
`aria-hidden` attribute (returning `None`) or scans its first child's
children for the post-info block.  Subscripting a navigable string raises
`TypeError`. -/
def get_post_info : Node → PostInfoResult
  | Node.txt _ => PostInfoResult.err PyErr.typeError
  | Node.elem _ attrs children =>
    match attrLookup "style" attrs with
    | none =>
      match children with
      | [] => PostInfoResult.noInfo
      | c :: _ => get_post_info c
    | some s =>
      if s = "" then
        match children with
        | [] => PostInfoResult.err PyErr.indexError
        | c :: _ => get_post_info c
      else if hasAttrKey "aria-hidden" attrs then PostInfoResult.noInfo
      else
        match children with
        | [] => PostInfoResult.err PyErr.indexError
        | Node.txt _ :: _ => PostInfoResult.err PyErr.attributeError
        | Node.elem _ _ cs :: _ => scanDivs cs

/-- Scrapper `_get_user_info` (lines 228-229):
`post_info[0].contents[0].contents[1]`, where each subscript can raise
`IndexError` and `.contents` of a navigable string raises `AttributeError`. -/
def get_user_info (post_info : List Node) : Except PyErr Node :=
  match post_info[0]? with
  | none => Except.error PyErr.indexError
  | some (Node.txt _) => Except.error PyErr.attributeError
  | some (Node.elem _ _ cs) =>
    match cs[0]? with
    | none => Except.error PyErr.indexError
    | some (Node.txt _) => Except.error PyErr.attributeError
    | some (Node.elem _ _ cs2) =>
      match cs2[1]? with
      | none => Except.error PyErr.indexError
      | some n => Except.ok n

/-- Evaluation of `node.find("a")["href"]` as used by `_get_post_link` and
`_get_user_link`.  On a navigable string, `str.find` returns an `int` and the
`["href"]` subscript raises `TypeError`; when no anchor is found, `find`
returns `None` and `None["href"]` raises `TypeError`; a found anchor without
an `href` attribute raises `KeyError`. -/
def findAnchorHref : Node → Except PyErr String
  | Node.txt _ => Except.error PyErr.typeError
  | Node.elem _ _ cs =>
    match findTagL (fun m => nodeName m == some "a") cs with
    | none => Except.error PyErr.typeError
    | some t =>
      match nodeAttr "href" t with
      | none => Except.error (PyErr.keyError "href")
      | some href => Except.ok href

/-- Scrapper `_get_user_link` (lines 235-237): the `href` of the first anchor
anywhere under `user_info`, trimmed at the `"?__cft__[0]"` marker. -/
def get_user_link (user_info : Node) : Except PyErr String :=
  match findAnchorHref user_info with
  | Except.error e => Except.error e
  | Except.ok href => Except.ok (trim_tracking href)

/-- Scrapper `_get_post_link` (lines 231-233): the `href` of the first anchor
under `user_info.contents[0].contents[1]`, trimmed at the `"?__cft__[0]"`
marker. -/
def get_post_link (user_info : Node) : Except PyErr String :=
  match user_info with
  | Node.txt _ => Except.error PyErr.attributeError
  | Node.elem _ _ cs =>
    match cs[0]? with
    | none => Except.error PyErr.indexError
    | some (Node.txt _) => Except.error PyErr.attributeError
    | some (Node.elem _ _ cs2) =>
      match cs2[1]? with
      | none => Except.error PyErr.indexError
      | some m =>
        match findAnchorHref m with
        | Except.error e => Except.error e
        | Except.ok href => Except.ok (trim_tracking href)

/-- Test for `set(("class", "id")) == set(el.attrs.keys())` (line 259). -/
def attrsExactlyClassId (a : List (String × String)) : Bool :=
  hasAttrKey "class" a && hasAttrKey "id" a &&
    a.all (fun p => p.1 == "class" || p.1 == "id")

/-- Classification of one `el` of `post_info[1].contents` by the `for` loop of
`_get_post_text` (lines 241-262), producing the text fragment this `el`
contributes, or the exception its evaluation raises.  The `except IndexError`
at line 252 only guards the inserted-message extraction; `AttributeError`
propagates.  In the undetected-text branch (line 258) the logging call
evaluates `_get_post_link(_get_user_info(post_info))`, which may itself
raise; on success the branch contributes no text. -/
def get_post_text_frag (post_info : List Node) : Node → Except PyErr String
  | Node.txt _ => Except.error PyErr.attributeError
  | Node.elem nm a cs =>
    match cs with
    | [] => Except.error PyErr.indexError
    | Node.txt _ :: _ => Except.error PyErr.attributeError
    | Node.elem _ a0 cs0 :: _ =>
      if hasAttrKey "data-ad-comet-preview" a0 then
        match cs0 with
        | [] => Except.error PyErr.indexError
        | n :: _ => Except.ok (Node.text n ++ "\n")
      else if nm = "blockquote" then
        match cs0 with
        | [] => Except.error PyErr.indexError
        | n :: _ => Except.ok ("Translated text: " ++ Node.text n)
      else
        match cs0 with
        | [] => Except.error PyErr.indexError
        | Node.txt _ :: _ => Except.error PyErr.attributeError
        | Node.elem dnm _ ds :: _ =>
          if ds.length = 3 then
            if dnm = "a" then Except.ok ""
            else
              match ds.getLast? with
              | none => Except.error PyErr.indexError
              | some (Node.txt _) => Except.error PyErr.attributeError
              | some (Node.elem _ _ dls) =>
                match dls with
                | [] => Except.ok "Inserted message doesn't contain any text\n"
                | m :: _ => Except.ok (Node.text m ++ "\n")
          else if cs0.length = 3 then
            match findTagL (fun n => nodeName n == some "div" &&
                nodeAttr "data-ad-comet-preview" n == some "message") cs with
            | some t => Except.ok (Node.text t)
            | none =>
              match get_user_info post_info with
              | Except.error e => Except.error e
              | Except.ok ui =>
                match get_post_link ui with
                | Except.error e => Except.error e
                | Except.ok _ => Except.ok ""
          else if attrsExactlyClassId a then Except.ok ""
          else Except.ok (Node.text (Node.elem nm a cs) ++ "\n")

/-- Accumulating loop of `_get_post_text` over `post_info[1].contents`. -/
def get_post_text_loop (post_info : List Node) : List Node → String → Except PyErr String
  | [], acc => Except.ok acc
  | el :: rest, acc =>
    match get_post_text_frag post_info el with
    | Except.error e => Except.error e
    | Except.ok s => get_post_text_loop post_info rest (acc ++ s)

/-- Scrapper `_get_post_text` (lines 239-263): concatenates the classified
fragments and falls back to the sentinel `"No text available"` when the
accumulated text is empty. -/
def get_post_text (post_info : List Node) : Except PyErr String :=
  match post_info[1]? with
  | none => Except.error PyErr.indexError
  | some (Node.txt _) => Except.error PyErr.attributeError
  | some (Node.elem _ _ els) =>
    match get_post_text_loop post_info els "" with
    | Except.error e => Except.error e
    | Except.ok s => Except.ok (if s = "" then "No text available" else s)

/-- Lead record produced by `get_lead_from_feed_post` (lines 136-152): the
dictionary `{"post_text": ..., "user_link": ..., "post_link": ...}` whose
fields are `None` or strings. -/
structure Lead : Type where
  post_text : Option String
  user_link : Option String
  post_link : Option String
deriving DecidableEq

/-- Lead with all three fields `None`, returned when `_get_post_info` yields
nothing (line 144). -/
def nullLead : Lead := { post_text := none, user_link := none, post_link := none }

/-- Scrapper `get_lead_from_feed_post` (lines 136-152): runs the structural
walk, returns the all-null lead when `post_info` is `None` or empty, and
otherwise evaluates user link, post link and post text in source order,
propagating the first exception raised. -/
def get_lead_from_feed_post (feed_post : Node) : PyResult Lead :=
  match get_post_info feed_post with
  | PostInfoResult.err e => PyResult.exn e
  | PostInfoResult.diverge => PyResult.diverge
  | PostInfoResult.noInfo => PyResult.ok nullLead
  | PostInfoResult.info post_info =>
    if post_info.isEmpty then PyResult.ok nullLead
    else
      match get_user_info post_info with
      | Except.error e => PyResult.exn e
      | Except.ok user_info =>
        match get_user_link user_info with
        | Except.error e => PyResult.exn e
        | Except.ok user_link =>
          match get_post_link user_info with
          | Except.error e => PyResult.exn e
          | Except.ok post_link =>
            match get_post_text post_info with
            | Except.error e => PyResult.exn e
            | Except.ok post_text =>
              PyResult.ok { post_text := some post_text,
                            user_link := some user_link,
                            post_link := some post_link }

/-- Group record (`group.group_link`, `group.last_post_link`): feed address
and optional watermark. -/
structure Group : Type where
  group_link : String
  last_post_link : Option String
deriving DecidableEq

/-- Python truthiness of an optional string: `None` and the empty string are
falsy, every other string is truthy. -/
def pyTruthyOptStr : Option String → Bool
  | none => false
  | some s => !(s == "")

/-- Scrapper `get_new_posts_from_recent` (lines 204-208): collects every index
whose lead has a truthy `post_link` equal to the group's watermark, then
returns the slice `recent[:first_such_index]`, or `recent` unchanged when the
index list is empty. -/
def get_new_posts_from_recent (recent : List Lead) (group : Group) : List Lead :=
  let last_lead_index :=
    (recent.enum).filterMap
      (fun ip =>
        if pyTruthyOptStr ip.2.post_link && (ip.2.post_link == group.last_post_link)
        then some ip.1 else none)
  match last_lead_index with
  | [] => recent
  | i :: _ => recent.take i

/-- Modelled from the claim's words (C1): truncation that cuts at the first
index whose `post_link` equals the watermark, with a null watermark or no
match leaving the sequence unchanged. -/
def truncate_claim_go (w : String) : List Lead → List Lead
  | [] => []
  | p :: rest => if p.post_link == some w then [] else p :: truncate_claim_go w rest

/-- Modelled from the claim's words (C1): the full claimed truncation
contract, dispatching on a null watermark. -/
def truncate_claim (recent : List Lead) (w : Option String) : List Lead :=
  match w with
  | none => recent
  | some s => truncate_claim_go s recent

/-- Amended truncation semantics: cut at the first lead whose `post_link` is
truthy (non-null and non-empty) and equal to the watermark; otherwise return
the list unchanged. -/
def truncate_amended (w : Option String) : List Lead → List Lead
  | [] => []
  | p :: rest =>
    if pyTruthyOptStr p.post_link && (p.post_link == w) then []
    else p :: truncate_amended w rest

/-- Position of the first lead with a truthy `post_link` equal to `w` (proof
helper relating the index comprehension of line 205-207 to the recursive
truncation). -/
def firstMatchPos (w : Option String) : List Lead → Option Nat
  | [] => none
  | p :: rest =>
    if pyTruthyOptStr p.post_link && (p.post_link == w) then some 0
    else (firstMatchPos w rest).map (· + 1)

/-- Python attribute access `lead.user_link` / `lead.post_link` as performed
by line 126 on an accumulated lead: `get_lead_from_feed_post` builds every
lead as a plain dict (lines 144 and 152), and a Python dict exposes its keys
through subscripting, not through attributes, so the attribute access raises
`AttributeError` whatever the stored values are. -/
def leadGetAttr (_lead : Lead) (_attr : String) : Except PyErr (Option String) :=
  Except.error PyErr.attributeError

/-- Validity-filter comprehension of line 126:
`[lead for lead in recent_leads if lead.user_link and lead.post_link]`.
Each element evaluates `lead.user_link` and, when that is truthy,
`lead.post_link` (Python `and` short-circuits), through the attribute access
modelled by `leadGetAttr`; on these dict leads the first access raises. -/
def merge_filter : List Lead → Except PyErr (List Lead)
  | [] => Except.ok []
  | l :: rest =>
    match leadGetAttr l "user_link" with
    | Except.error e => Except.error e
    | Except.ok ul =>
      if pyTruthyOptStr ul then
        match leadGetAttr l "post_link" with
        | Except.error e => Except.error e
        | Except.ok pl =>
          if pyTruthyOptStr pl then
            match merge_filter rest with
            | Except.error e => Except.error e
            | Except.ok tail => Except.ok (l :: tail)
          else merge_filter rest
      else merge_filter rest

/-- Python `list(set(xs))` of line 126 applied to dict elements: dicts are
unhashable, so hashing the first element of a non-empty list raises
`TypeError`; the empty list yields the empty set, converted back to `[]`. -/
def pySetList : List Lead → Except PyErr (List Lead)
  | [] => Except.ok []
  | _ :: _ => Except.error PyErr.typeError

/-- Merge step of `get_feed_posts` (line 126):
`recent_leads = list(set([lead for lead in recent_leads if lead.user_link
and lead.post_link]))`, run after lines 121-125 appended the freshly
extracted dict leads to the accumulation. -/
def merge_step (recent_leads : List Lead) : Except PyErr (List Lead) :=
  match merge_filter recent_leads with
  | Except.error e => Except.error e
  | Except.ok filtered => pySetList filtered

/-- Session cookie record with the `sameSite` field read and written by
`add_cookie` (lines 168-176). -/
structure Cookie : Type where
  name : String
  value : String
  sameSite : String
deriving DecidableEq

/-- Account object consumed by `handle_authorization`: credentials, proxy,
stored cookies, subscribed groups, and the `new_cookies` attribute the code
assigns at line 164. -/
structure Account : Type where
  username : String
  password : String
  proxy_url : String
  cookies : List Cookie
  groups : List Group
  new_cookies : Option (List Cookie)
deriving DecidableEq

/-- Abstract browser-session state: current address, the cookie jar that
`driver.add_cookie` extends, whether the login-wall message node is present,
and the cookie set `driver.get_cookies()` reports after a login. -/
structure Driver : Type where
  url : String
  cookieJar : List Cookie
  loginWallPresent : Bool
  freshCookies : List Cookie
deriving DecidableEq

/-- Lines 170-174 of `add_cookie`: the two sequential `if` statements that
rewrite one cookie record's `sameSite` field in place (`"unspecified"` and
`"no_restriction"`, then `"lax"`, all become `"Lax"`). -/
def add_cookie_normalize (c : Cookie) : Cookie :=
  let c1 := if c.sameSite = "unspecified" ∨ c.sameSite = "no_restriction"
            then { c with sameSite := "Lax" } else c
  if c1.sameSite = "lax" then { c1 with sameSite := "Lax" } else c1

/-- Scrapper `add_cookie` (lines 168-176): for each supplied cookie record,
rewrite its `sameSite` field in place and inject it into the driver.  The
first component of the result is the state of the supplied cookie records
after the call, the second the driver state. -/
def add_cookie : List Cookie → Driver → List Cookie × Driver
  | [], driver => ([], driver)
  | c :: rest, driver =>
    let c2 := add_cookie_normalize c
    let driver1 := { driver with cookieJar := driver.cookieJar ++ [c2] }
    let r := add_cookie rest driver1
    (c2 :: r.1, r.2)

/-- Modelled from the spec's words (C10): the canonical cross-site policy
normalization, mapping `"unspecified"`, `"no_restriction"` and `"lax"` to
`"Lax"` and passing every other value through unchanged. -/
def normalize_sameSite_spec (s : String) : String :=
  if s = "unspecified" ∨ s = "no_restriction" ∨ s = "lax" then "Lax" else s

/-- Scrapper `handle_login` (lines 178-193): after best-effort consent
dismissal, a missing login-wall message node ends the function returning
`None`; otherwise credentials are submitted and the driver's refreshed cookie
set is returned. -/
def handle_login (_user : Account) (driver : Driver) : Option (List Cookie) :=
  if driver.loginWallPresent then some driver.freshCookies else none

/-- Top-level names bound in the module `src/scrapper.py` (its imports at
lines 1-23, `logger` at line 25 and the two classes); the name `settings`
referenced at line 155 is not among them. -/
def scrapper_module_globals : List String :=
  ["contextlib", "logging", "os", "time", "SystemRandom", "Dict", "List",
   "webdriver", "BeautifulSoup", "Tag",
   "ElementClickInterceptedException", "ElementNotInteractableException",
   "NoSuchElementException", "StaleElementReferenceException",
   "TimeoutException", "Options", "WebDriver", "ActionChains", "By", "Keys",
   "EC", "WebDriverWait", "logger", "WebDriverManager", "Scrapper"]

/-- Python global-name resolution inside the scrapper module: an unbound name
raises `NameError`. -/
def resolveGlobal (n : String) : Except PyErr String :=
  if scrapper_module_globals.contains n then Except.ok n
  else Except.error (PyErr.nameError n)

/-- Scrapper `handle_authorization` (lines 154-166).  Its first statement
evaluates `settings.FB_MAIN_LINK`, so the global name `settings` is resolved
before anything else; afterwards stored cookies are restored (mutating the
supplied records), `handle_login` runs, and refreshed cookies are assigned to
the account's `new_cookies` attribute and injected.  The function returns the
post-call state of the mutated account and driver; the Python function itself
returns `None`. -/
def handle_authorization (user : Account) (driver : Driver) :
    Except PyErr (Account × Driver) :=
  match resolveGlobal "settings" with
  | Except.error e => Except.error e
  | Except.ok fb_main_link =>
    let driver0 := { driver with url := fb_main_link }
    let restored :=
      if !user.cookies.isEmpty then add_cookie user.cookies driver0
      else (user.cookies, driver0)
    let user1 := { user with cookies := restored.1 }
    match handle_login user1 restored.2 with
    | none => Except.ok (user1, restored.2)
    | some new_cookies =>
      let user2 := { user1 with new_cookies := some new_cookies }
      let added := add_cookie new_cookies restored.2
      let user3 := { user2 with new_cookies := some added.1 }
      Except.ok (user3, added.2)

/-- Modelled from the claim's words (C8): whether any element on the
first-descendant chain of a node (the node, its first child, that child's
first child, ...) carries an `aria-hidden` marker. -/
def chain_has_aria_hidden : Node → Bool
  | Node.txt _ => false
  | Node.elem _ attrs cs =>
    hasAttrKey "aria-hidden" attrs ||
      (match cs with
       | [] => false
       | c :: _ => chain_has_aria_hidden c)

/-- Concrete node with a truthy `style` attribute and no children: line 218
evaluates `feed_post.contents[0]` and the `IndexError` is not caught. -/
def c2_node : Node := Node.elem "div" [("style", "height: 100px")] []

/-- Concrete childless tag without a `style` attribute: the descent breaks
out of the walk and extraction yields the all-null Lead. -/
def c2w_node : Node := Node.elem "p" [] []

/-- Anchor holding the author link of the concrete parseable post. -/
def a_user : Node := Node.elem "a" [("href", "https://site/user?__cft__[0]=z")] []

/-- Anchor holding the post permalink of the concrete parseable post. -/
def a_post : Node := Node.elem "a" [("href", "https://site/post?__cft__[0]=abc&x=1")] []

/-- Wrapper around the author anchor. -/
def w_user : Node := Node.elem "span" [] [a_user]

/-- Wrapper around the permalink anchor. -/
def w_post : Node := Node.elem "span" [] [a_post]

/-- Link container: its second child holds the permalink anchor. -/
def v_links : Node := Node.elem "div" [] [w_user, w_post]

/-- User-info node of the concrete parseable post. -/
def user_info_node : Node := Node.elem "div" [] [v_links]

/-- Header block whose second child is the user-info node. -/
def header_block : Node := Node.elem "div" [] [Node.txt "hdr", user_info_node]

/-- First element of the post-info block (author area). -/
def x1_block : Node := Node.elem "div" [] [header_block]

/-- Innermost text carrier of the concrete parseable post. -/
def text_leaf : Node := Node.elem "span" [] [Node.txt "hello"]

/-- Middle wrapper of the text element. -/
def text_mid : Node := Node.elem "div" [] [text_leaf]

/-- Text element classified by the final `else` branch of `_get_post_text`. -/
def text_el : Node := Node.elem "div" [("data-x", "1")] [text_mid]

/-- Second element of the post-info block (message area). -/
def x2_block : Node := Node.elem "div" [] [text_el]

/-- Grandchild whose children from index 1 form the post-info block. -/
def g2_block : Node := Node.elem "div" [] [Node.txt "seen", x1_block, x2_block]

/-- Child wrapping the grandchild. -/
def g1_block : Node := Node.elem "div" [] [g2_block]

/-- Qualifying `div` of the scan at lines 218-220: no `class` attribute and
non-empty contents. -/
def div_qual : Node := Node.elem "div" [] [g1_block]

/-- First child of the styled tag, whose children the scan iterates. -/
def c0_block : Node := Node.elem "div" [] [div_qual]

/-- Concrete fully parseable post node: truthy `style`, no `aria-hidden`. -/
def good_node : Node := Node.elem "div" [("style", "s")] [c0_block]

/-- Wrapper carrying `aria-hidden` but no `style` attribute around the
parseable post: the walk's `KeyError` path steps through it. -/
def c8_node : Node := Node.elem "div" [("aria-hidden", "true")] [good_node]

/-- Lead extracted from the concrete parseable post. -/
def good_lead : Lead :=
  { post_text := some "hello\n", user_link := some "https://site/user",
    post_link := some "https://site/post" }

/-- Concrete tag carrying both a truthy `style` and `aria-hidden`. -/
def c8w_node : Node :=
  Node.elem "div" [("style", "color: red"), ("aria-hidden", "x")] [Node.txt "hi"]

/-- Concrete unextractable node (no `style`, no children) for C9. -/
def c9_node : Node := Node.elem "span" [("data-y", "2")] []

/-- Concrete hidden node (truthy `style` plus `aria-hidden`) for C9. -/
def c9w_node : Node := Node.elem "div" [("style", "x"), ("aria-hidden", "true")] []

/-- Lead whose `post_link` is the empty string. -/
def c1_lead : Lead := { post_text := none, user_link := some "u", post_link := some "" }

/-- Group whose watermark is the empty string. -/
def c1_group : Group := { group_link := "https://g", last_post_link := some "" }

/-- Dict lead accumulated by the loop, first element of the C4 failing
input. -/
def lead_a : Lead :=
  { post_text := some "ta", user_link := some "ua", post_link := some "pa" }

/-- Dict lead accumulated by the loop, second element of the C4 failing
input. -/
def lead_b : Lead :=
  { post_text := some "tb", user_link := some "ub", post_link := some "pb" }

/-- Cookie with the legacy `"lax"` policy value, used in the C6
counterexample. -/
def c6_cookie : Cookie := { name := "sb", value := "v1", sameSite := "lax" }

/-- Driver state used in the C6 counterexample. -/
def c6_driver : Driver :=
  { url := "", cookieJar := [], loginWallPresent := false, freshCookies := [] }

/-- Cookie with the legacy `"lax"` policy value, used in the C6 witness. -/
def c6w_cookie : Cookie := { name := "xs", value := "v2", sameSite := "lax" }

/-- Driver state used in the C6 witness. -/
def c6w_driver : Driver :=
  { url := "about:blank", cookieJar := [], loginWallPresent := true,
    freshCookies := [] }

/-- Account used in the C6 witness. -/
def c6w_account : Account :=
  { username := "u", password := "p", proxy_url := "x", cookies := [],
    groups := [], new_cookies := none }

/-- Head of the index comprehension of lines 205-207, over an enumeration
starting at `n`, expressed through `firstMatchPos`. -/
theorem filterMap_enumFrom_head (w : Option String) (l : List Lead) :
    ∀ n : Nat,
      (List.filterMap
        (fun ip => if pyTruthyOptStr ip.2.post_link && (ip.2.post_link == w)
                   then some ip.1 else none) (l.enumFrom n)).head? =
        (firstMatchPos w l).map (· + n) := by
  induction l with
  | nil => intro n; rfl
  | cons p rest ih =>
    intro n
    rw [show ((p :: rest).enumFrom n) = (n, p) :: rest.enumFrom (n + 1) from rfl]
    by_cases h : (pyTruthyOptStr p.post_link && (p.post_link == w)) = true
    · have hfm : firstMatchPos w (p :: rest) = some 0 := by
        simp only [firstMatchPos]; rw [if_pos h]
      rw [hfm]
      simp only [List.filterMap_cons]
      rw [if_pos h]
      show some n = some (0 + n)
      exact congrArg some (by omega)
    · have hfm : firstMatchPos w (p :: rest) = (firstMatchPos w rest).map (· + 1) := by
        simp only [firstMatchPos]; rw [if_neg h]
      rw [hfm]
      simp only [List.filterMap_cons]
      rw [if_neg h]
      show (List.filterMap
        (fun ip => if pyTruthyOptStr ip.2.post_link && (ip.2.post_link == w)
                   then some ip.1 else none) (rest.enumFrom (n + 1))).head? =
        ((firstMatchPos w rest).map (· + 1)).map (· + n)
      rw [ih (n + 1)]
      cases hm : firstMatchPos w rest with
      | none => rfl
      | some k =>
        show some (k + (n + 1)) = some (k + 1 + n)
        exact congrArg some (by omega)

/-- Recursive characterisation of the truncation produced by lines 205-208 in
terms of the position of the first truthy watermark match. -/
theorem truncate_amended_eq_match (w : Option String) :
    ∀ l : List Lead,
      truncate_amended w l =
        (match firstMatchPos w l with
         | none => l
         | some i => l.take i) := by
  intro l
  induction l with
  | nil => rfl
  | cons p rest ih =>
    by_cases h : (pyTruthyOptStr p.post_link && (p.post_link == w)) = true
    · have hfm : firstMatchPos w (p :: rest) = some 0 := by
        simp only [firstMatchPos]; rw [if_pos h]
      rw [hfm]
      simp only [truncate_amended]
      rw [if_pos h]
      rfl
    · have hfm : firstMatchPos w (p :: rest) = (firstMatchPos w rest).map (· + 1) := by
        simp only [firstMatchPos]; rw [if_neg h]
      rw [hfm]
      simp only [truncate_amended]
      rw [if_neg h, ih]
      cases hm : firstMatchPos w rest with
      | none => rfl
      | some k => rfl

/-- C1 (amended): `get_new_posts_from_recent` cuts strictly before the first
lead whose `post_link` is truthy (non-null, non-empty) and equal to the
group's watermark, and returns the sequence unchanged when the watermark is
null or no such lead exists. -/
theorem C1_truncation (recent : List Lead) (group : Group) :
    get_new_posts_from_recent recent group =
      truncate_amended group.last_post_link recent := by
  rw [truncate_amended_eq_match]
  unfold get_new_posts_from_recent
  have h := filterMap_enumFrom_head group.last_post_link recent 0
  rw [show recent.enum = recent.enumFrom 0 from rfl]
  cases hL : List.filterMap
      (fun ip => if pyTruthyOptStr ip.2.post_link &&
          (ip.2.post_link == group.last_post_link) then some ip.1 else none)
      (recent.enumFrom 0) with
  | nil =>
    rw [hL] at h
    cases hm : firstMatchPos group.last_post_link recent with
    | none => rfl
    | some k => rw [hm] at h; exact absurd h (by simp)
  | cons i tl =>
    rw [hL] at h
    cases hm : firstMatchPos group.last_post_link recent with
    | none => rw [hm] at h; exact absurd h (by simp)
    | some k =>
      rw [hm] at h
      simp only [List.head?_cons, Option.map_some'] at h
      rw [Option.some.injEq] at h
      show List.take i recent = List.take k recent
      rw [h, Nat.add_zero]

/-- C1 counterexample: with watermark `""` and a lead whose `post_link` is
`""`, the claimed contract truncates to the empty list, but line 206 demands
a truthy `post_link`, so the code returns the sequence unchanged. -/
theorem C1_counterexample :
    get_new_posts_from_recent [c1_lead] c1_group ≠
      truncate_claim [c1_lead] c1_group.last_post_link := by decide

/-- C2 (amended): when the structural walk of `_get_post_info` ends in one of
its `break` paths (returning `None`) or returns an empty block, lead
extraction returns the all-null Lead without raising; nodes whose fixed
structural offsets are absent instead raise uncaught exceptions. -/
theorem C2_null_on_no_info (node : Node)
    (h : get_post_info node = PostInfoResult.noInfo ∨
         get_post_info node = PostInfoResult.info []) :
    get_lead_from_feed_post node = PyResult.ok nullLead := by
  unfold get_lead_from_feed_post
  rcases h with h | h
  · rw [h]
  · rw [h]; rfl

/-- Witness for C2: a childless style-less tag takes the graceful path. -/
theorem C2_witness :
    get_lead_from_feed_post c2w_node = PyResult.ok nullLead :=
  C2_null_on_no_info c2w_node (Or.inl rfl)

/-- C2 counterexample: a tag with a non-empty `style` attribute and no
children makes line 218 of `_get_post_info` raise an uncaught `IndexError`,
so extraction raises instead of returning a Lead. -/
theorem C2_counterexample :
    get_lead_from_feed_post c2_node = PyResult.exn PyErr.indexError := rfl

/-- C3 (code bug): the trimming of `_get_post_link` / `_get_user_link`
removes the tracking fragment when the `"?__cft__[0]"` marker is present,
but on an href without the marker Python `find` returns `-1` and the slice
`href[:-1]` drops the final character instead of leaving the href
unchanged. -/
theorem C3_trim_bug :
    trim_tracking "https://site/post?__cft__[0]=abc&x=1" = "https://site/post" ∧
      trim_tracking "https://site/post" = "https://site/pos" :=
  ⟨rfl, rfl⟩

/-- C4 (code bug): the merge step of `get_feed_posts` raises
`AttributeError` on its dict leads before any deduplication runs, so the
loop never produces a merged sequence whose order could be observed; the
watermark truncation, the one pipeline stage that does run on a lead
sequence, is order-preserving — its output is always a prefix of its
input. -/
theorem C4_merge_crash :
    merge_step [lead_a, lead_b] = Except.error PyErr.attributeError ∧
      ∀ (recent : List Lead) (group : Group),
        ∃ t, get_new_posts_from_recent recent group ++ t = recent := by
  constructor
  · rfl
  · intro recent group
    unfold get_new_posts_from_recent
    cases hL : List.filterMap
        (fun ip => if pyTruthyOptStr ip.2.post_link &&
            (ip.2.post_link == group.last_post_link) then some ip.1 else none)
        recent.enum with
    | nil => exact ⟨[], List.append_nil recent⟩
    | cons i tl => exact ⟨recent.drop i, List.take_append_drop i recent⟩

/-- C5 (code bug): every merge step with at least one accumulated lead
raises `AttributeError` in the validity-filter comprehension (attribute
access on a dict lead), so no non-empty accumulated lead set is ever
formed; the only completing merge step is the one over an empty
accumulation, which yields the empty list. -/
theorem C5_merge_crash :
    (∀ (l : Lead) (rest : List Lead),
        merge_step (l :: rest) = Except.error PyErr.attributeError) ∧
      merge_step [] = Except.ok [] := by
  constructor
  · intro l rest; rfl
  · rfl

/-- Per-cookie rewrite of `add_cookie` expressed through the spec's canonical
normalization. -/
theorem add_cookie_normalize_eq (c : Cookie) :
    add_cookie_normalize c =
      { c with sameSite := normalize_sameSite_spec c.sameSite } := by
  obtain ⟨n, v, s⟩ := c
  simp only [add_cookie_normalize, normalize_sameSite_spec]
  by_cases h1 : s = "unspecified" <;> by_cases h2 : s = "no_restriction" <;>
    by_cases h3 : s = "lax" <;> simp_all

/-- State of the cookie records and of the driver's jar after `add_cookie`:
both hold the normalized cookies, the jar with the new ones appended. -/
theorem add_cookie_records (cookies : List Cookie) (driver : Driver) :
    (add_cookie cookies driver).1 =
        cookies.map
          (fun c => { c with sameSite := normalize_sameSite_spec c.sameSite }) ∧
      (add_cookie cookies driver).2.cookieJar =
        driver.cookieJar ++
          cookies.map
            (fun c => { c with sameSite := normalize_sameSite_spec c.sameSite }) := by
  induction cookies generalizing driver with
  | nil => exact ⟨rfl, (List.append_nil _).symm⟩
  | cons c rest ih =>
    constructor
    · simp only [add_cookie, List.map_cons]
      rw [add_cookie_normalize_eq, List.cons.injEq]
      exact ⟨rfl, (ih _).1⟩
    · simp only [add_cookie, List.map_cons]
      rw [add_cookie_normalize_eq, (ih _).2]
      simp [List.append_assoc]

/-- C6 (amended): session establishment raises `NameError` on its first
statement (so it never completes, returns nothing, and leaves the account
untouched at run time), while `add_cookie` does write normalized `sameSite`
values back into the supplied cookie records. -/
theorem C6_mutation (user : Account) (driver : Driver) (d2 : Driver)
    (c : Cookie) (rest : List Cookie) (h : c.sameSite = "lax") :
    handle_authorization user driver =
        Except.error (PyErr.nameError "settings") ∧
      (add_cookie (c :: rest) d2).1 ≠ c :: rest := by
  constructor
  · rfl
  · intro hEq
    rw [(add_cookie_records (c :: rest) d2).1, List.map_cons,
        List.cons.injEq] at hEq
    have h2 : normalize_sameSite_spec c.sameSite = c.sameSite :=
      congrArg Cookie.sameSite hEq.1
    rw [h] at h2
    exact absurd h2 (by decide)

/-- Witness for C6: a concrete cookie record with the legacy `"lax"` value is
rewritten by `add_cookie`. -/
theorem C6_witness : (add_cookie [c6w_cookie] c6w_driver).1 ≠ [c6w_cookie] :=
  (C6_mutation c6w_account c6w_driver c6w_driver c6w_cookie [] rfl).2

/-- C6 counterexample: the supplied cookie records are mutated in place by
normalization, contradicting the claim that they are never written. -/
theorem C6_counterexample :
    (add_cookie [c6_cookie] c6_driver).1 ≠ [c6_cookie] := by decide

/-- C7: the first statement of `handle_authorization` reads
`settings.FB_MAIN_LINK`, and the module binds no global named `settings`, so
session establishment always raises `NameError` before restoring cookies or
detecting the login wall. -/
theorem C7_name_error (user : Account) (driver : Driver) :
    handle_authorization user driver =
      Except.error (PyErr.nameError "settings") := rfl

/-- Tag with a truthy `style` attribute and an `aria-hidden` marker: the walk
of `_get_post_info` stops at once and returns `None`. -/
theorem get_post_info_aria (nm : String) (attrs : List (String × String))
    (children : List Node) (s : String)
    (h1 : attrLookup "style" attrs = some s) (h2 : s ≠ "")
    (h3 : hasAttrKey "aria-hidden" attrs = true) :
    get_post_info (Node.elem nm attrs children) = PostInfoResult.noInfo := by
  cases children with
  | nil => rw [get_post_info.eq_2, h1]; simp [h2, h3]
  | cons c rest => rw [get_post_info.eq_3, h1]; simp [h2, h3]

/-- C8 (amended): the `aria-hidden` check of line 216 fires only on a tag
whose `style` attribute is present and truthy; such a tag stops the walk and
extraction returns the all-null Lead. -/
theorem C8_aria_hidden (nm : String) (attrs : List (String × String))
    (children : List Node) (s : String)
    (h1 : attrLookup "style" attrs = some s) (h2 : s ≠ "")
    (h3 : hasAttrKey "aria-hidden" attrs = true) :
    get_lead_from_feed_post (Node.elem nm attrs children) =
      PyResult.ok nullLead := by
  unfold get_lead_from_feed_post
  rw [get_post_info_aria nm attrs children s h1 h2 h3]

/-- Witness for C8: a concrete tag with truthy `style` and `aria-hidden`
yields the all-null Lead. -/
theorem C8_witness :
    get_lead_from_feed_post c8w_node = PyResult.ok nullLead :=
  C8_aria_hidden "div" [("style", "color: red"), ("aria-hidden", "x")]
    [Node.txt "hi"] "color: red" rfl (by decide) rfl

/-- C8 counterexample: an `aria-hidden` marker on a style-less wrapper is on
the first-descendant chain but does not stop the walk: the inner post parses
to a fully non-null Lead instead of the all-null one. -/
theorem C8_counterexample :
    chain_has_aria_hidden c8_node = true ∧
      get_lead_from_feed_post c8_node = PyResult.ok good_lead ∧
      good_lead ≠ nullLead :=
  ⟨rfl, rfl, by decide⟩

/-- Text assembled by `_get_post_text` is never empty: the final line falls
back to the sentinel on an empty accumulation. -/
theorem get_post_text_ne_empty (post_info : List Node) (s : String)
    (h : get_post_text post_info = Except.ok s) : s ≠ "" := by
  unfold get_post_text at h
  split at h
  · exact absurd h (by simp)
  · exact absurd h (by simp)
  · split at h
    · exact absurd h (by simp)
    · rename_i s0 heq
      simp only [Except.ok.injEq] at h
      by_cases h3 : s0 = ""
      · rw [if_pos h3] at h; rw [← h]; decide
      · rw [if_neg h3] at h; rw [← h]; exact h3

/-- C9 (amended): an extracted Lead's `post_text` is never the empty string:
it is a non-empty concatenation, the sentinel `"No text available"`, or null
when the post is wholly unextractable. -/
theorem C9_post_text (node : Node) (lead : Lead)
    (h : get_lead_from_feed_post node = PyResult.ok lead) :
    lead.post_text ≠ some "" := by
  unfold get_lead_from_feed_post at h
  split at h
  · exact absurd h (by simp)
  · exact absurd h (by simp)
  · simp only [PyResult.ok.injEq] at h
    rw [← h]
    simp [nullLead]
  · rename_i pi hpi
    split at h
    · simp only [PyResult.ok.injEq] at h
      rw [← h]
      simp [nullLead]
    · split at h
      · exact absurd h (by simp)
      · split at h
        · exact absurd h (by simp)
        · split at h
          · exact absurd h (by simp)
          · split at h
            · exact absurd h (by simp)
            · rename_i post_text hpt
              simp only [PyResult.ok.injEq] at h
              rw [← h]
              simp only [ne_eq, Option.some.injEq]
              exact get_post_text_ne_empty pi post_text hpt

/-- Witness for C9: the all-null Lead of a hidden node has a `post_text`
different from the empty string. -/
theorem C9_witness : nullLead.post_text ≠ some "" :=
  C9_post_text c9w_node nullLead rfl

/-- C9 counterexample: an unextractable node yields `post_text = None`, not
the sentinel `"No text available"` the claim demands for that case. -/
theorem C9_counterexample :
    get_lead_from_feed_post c9_node = PyResult.ok nullLead ∧
      nullLead.post_text ≠ some "No text available" :=
  ⟨rfl, by decide⟩

/-- C10: `add_cookie` normalizes each injected cookie exactly as the spec
words it — `"unspecified"`, `"no_restriction"` and `"lax"` become `"Lax"`,
every other value passes through unchanged — both in the mutated records and
in the driver's cookie jar. -/
theorem C10_normalization (cookies : List Cookie) (driver : Driver) :
    (add_cookie cookies driver).1 =
        cookies.map
          (fun c => { c with sameSite := normalize_sameSite_spec c.sameSite }) ∧
      (add_cookie cookies driver).2.cookieJar =
        driver.cookieJar ++
          cookies.map
            (fun c => { c with sameSite := normalize_sameSite_spec c.sameSite }) :=
  add_cookie_records cookies driver

end Scrapper
